import Mathlib

/-!
# Verification of the load/chaos testing core

Shallow embedding of `src/utils/chaos_monkey.py`, `src/utils/load_generator.py`
and `src/utils/test_helpers.py` (the `ChaosMonkey` injector, the `LoadGenerator`
operations, `calculate_metrics`, and `retry_on_failure`), together with proofs
settling the specification claims about them.

Modelling conventions:
* Python floats are modelled as rationals (`ℚ`); the random stream
  `random.random()` is an explicit list of draws in `[0,1)`, consumed head
  first; `random.choice` over a three-element list is an explicit `Fin 3` index.
* `time.sleep` is modelled by accumulating the slept duration in a trace;
  wall-clock time in `sustained_load` is the sum of operation elapsed times and
  sleeps.
* A Python function that can raise is modelled with an explicit error case in
  its result type; a caller-supplied operation is an opaque value (when it
  cannot fail in the modelled scenario) or an `Except String` value plus its
  elapsed time.
* The Python `dict` records built by the load generator are modelled as
  association lists of string keys, so that which keys a record carries is a
  provable fact.
-/

set_option autoImplicit false

namespace LoadChaos

/-! ## ChaosMonkey (`src/utils/chaos_monkey.py`) -/

/-- The `FailureType` enum of `chaos_monkey.py` (lines 13–20). -/
inductive FailureType where
  | networkTimeout
  | connectionFailure
  | slowResponse
  | partialFailure
  | serviceUnavailable
  | random
deriving Repr, DecidableEq

/-- The mutable state of a `ChaosMonkey` instance: the configured
`failure_rate` and the two counters set up in `__init__` (lines 26–35). -/
structure ChaosMonkey where
  failure_rate : ℚ
  failure_count : ℕ
  total_requests : ℕ
deriving Repr, DecidableEq

/-- Model of `ChaosMonkey.__init__`: counters start at zero. -/
def ChaosMonkey.init (rate : ℚ) : ChaosMonkey :=
  { failure_rate := rate, failure_count := 0, total_requests := 0 }

/-- Model of `ChaosMonkey.should_fail` (lines 37–43): increment `total_requests`,
draw `r` from the random stream, fail iff `r < failure_rate`, and increment
`failure_count` when failing.  Returns the decision and the updated state. -/
def should_fail (cm : ChaosMonkey) (r : ℚ) : Bool × ChaosMonkey :=
  let cm1 := { cm with total_requests := cm.total_requests + 1 }
  if r < cm.failure_rate then
    (true, { cm1 with failure_count := cm1.failure_count + 1 })
  else
    (false, cm1)

/-- Iterate `should_fail` over a list of random draws, keeping the state. -/
def runShouldFail (cm : ChaosMonkey) : List ℚ → ChaosMonkey
  | [] => cm
  | r :: rs => runShouldFail (should_fail cm r).2 rs

/-- The snapshot returned by `ChaosMonkey.get_statistics` (lines 119–130). -/
structure Statistics where
  total_requests : ℕ
  failure_count : ℕ
  failure_rate : ℚ
  actual_failure_rate : ℚ
deriving Repr, DecidableEq

/-- Model of `ChaosMonkey.get_statistics` (lines 119–130): `actual_failure_rate` is
`failure_count / total_requests`, or `0` when there were no requests. -/
def get_statistics (cm : ChaosMonkey) : Statistics :=
  { total_requests := cm.total_requests
    failure_count := cm.failure_count
    failure_rate := cm.failure_rate
    actual_failure_rate :=
      if cm.total_requests > 0 then
        (cm.failure_count : ℚ) / (cm.total_requests : ℚ)
      else 0 }

/-- What one call to `inject_failure` ends in: the wrapped function's value is
returned, or one of the three synthetic exceptions propagates
(`TimeoutError` from `simulate_network_timeout`, `ConnectionError` from
`simulate_connection_failure`, the 503 `Exception` from
`simulate_service_unavailable`). -/
inductive InjectOutcome (α : Type) where
  | ok (v : α)
  | timeoutError
  | connectionError
  | serviceUnavailableError
deriving Repr, DecidableEq

/-- Trace of one `inject_failure` call: its outcome, how many times the
wrapped function `func` was invoked, the total time slept, and the injector
state after the call. -/
structure InjectTrace (α : Type) where
  outcome : InjectOutcome α
  funcCalls : ℕ
  slept : ℚ
  cm : ChaosMonkey
deriving Repr, DecidableEq

/-- The three-element list `failure_types` of the `RANDOM` branch
(lines 109–113), indexed the way `random.choice` samples it. -/
def randomPool : Fin 3 → FailureType
  | 0 => .networkTimeout
  | 1 => .connectionFailure
  | 2 => .serviceUnavailable

/-- Recursion measure: only the `RANDOM` branch recurses, with a kind drawn
from `randomPool`, which never yields `random` again. -/
def FailureType.rank : FailureType → ℕ
  | .random => 1
  | _ => 0

theorem randomPool_rank (c : Fin 3) : (randomPool c).rank = 0 := by
  fin_cases c <;> rfl

theorem randomPool_ne_random (c : Fin 3) : randomPool c ≠ .random := by
  fin_cases c <;> simp [randomPool]

/-- Model of `ChaosMonkey.inject_failure` (lines 76–117) for an operation modelled as a
pure value `funcVal` (each Python call `func(**kwargs)` returns `funcVal`).
`draws` is the stream of `random.random()` values, consumed head first;
`choice` is the index `random.choice` picks in the `RANDOM` branch.
The dispatch:
* decision false → call `func`, no synthetic failure (line 96–97);
* `NETWORK_TIMEOUT` → sleep `timeout_duration`, raise `TimeoutError`;
* `CONNECTION_FAILURE` → raise `ConnectionError` immediately;
* `SLOW_RESPONSE` → sleep `delay`, then call `func` and return its result;
* `SERVICE_UNAVAILABLE` → raise the 503 `Exception` immediately;
* `RANDOM` → pick from `randomPool` and recurse into the full
  `inject_failure` (line 115), consuming the rest of the stream;
* any other kind (`PARTIAL_FAILURE`) → the final `else`: call `func` (line 117). -/
def inject_failure {α : Type} (cm : ChaosMonkey) (funcVal : α)
    (failure_type : FailureType) (timeout_duration delay : ℚ)
    (draws : List ℚ) (choice : Fin 3) : InjectTrace α :=
  let dec := should_fail cm draws.headI
  if dec.1 = false then
    ⟨.ok funcVal, 1, 0, dec.2⟩
  else
    match failure_type with
    | .networkTimeout => ⟨.timeoutError, 0, timeout_duration, dec.2⟩
    | .connectionFailure => ⟨.connectionError, 0, 0, dec.2⟩
    | .slowResponse => ⟨.ok funcVal, 1, delay, dec.2⟩
    | .serviceUnavailable => ⟨.serviceUnavailableError, 0, 0, dec.2⟩
    | .random =>
        inject_failure dec.2 funcVal (randomPool choice) timeout_duration delay
          draws.tail choice
    | .partialFailure => ⟨.ok funcVal, 1, 0, dec.2⟩
termination_by failure_type.rank
decreasing_by
  fin_cases choice <;> simp [FailureType.rank, randomPool, FailureType.rank]

/-! ## Retry engine (`src/utils/test_helpers.py`, `retry_on_failure`) -/

/-- How a `retry_on_failure` call ends: the function's value is returned, an
exception is raised out of the call, or (when `max_retries = 0`) the loop body
never runs and Python falls off the end returning `None`. -/
inductive RetryResult (α ε : Type) where
  | ok (v : α)
  | raised (e : ε)
  | defaultNone
deriving Repr, DecidableEq

/-- Trace of one `retry_on_failure` call: its result, the number of times
`func` was invoked, and the total time slept between attempts. -/
structure RetryTrace (α ε : Type) where
  result : RetryResult α ε
  calls : ℕ
  slept : ℚ
deriving Repr, DecidableEq

/-- The `for attempt in range(max_retries)` loop of `retry_on_failure`
(lines 219–231), starting at iteration `attempt` with `fuel` iterations left
(`fuel = max_retries - attempt` at every call).  `op i` is what `func` does on
its `i`-th invocation: a value, or a raised exception `e`; `retryable e` models
`isinstance(e, exceptions)`.  A success returns immediately; a retryable
failure sleeps `delay` and continues when `attempt < max_retries - 1` and
re-raises otherwise; a non-retryable failure propagates uncaught. -/
def retryFrom {α ε : Type} (op : ℕ → Except ε α) (retryable : ε → Bool)
    (delay : ℚ) (max_retries : ℕ) : ℕ → ℕ → RetryTrace α ε
  | 0, _ => ⟨.defaultNone, 0, 0⟩
  | fuel + 1, attempt =>
    match op attempt with
    | .ok v => ⟨.ok v, 1, 0⟩
    | .error e =>
      if retryable e then
        if attempt < max_retries - 1 then
          let t := retryFrom op retryable delay max_retries fuel (attempt + 1)
          ⟨t.result, t.calls + 1, t.slept + delay⟩
        else
          ⟨.raised e, 1, 0⟩
      else
        ⟨.raised e, 1, 0⟩

/-- Model of `retry_on_failure` (lines 195–234): run the loop from attempt `0` with
`max_retries` iterations available.  (The trailing
`if last_exception: raise last_exception` is unreachable: the loop either
returns or re-raises whenever it ran at all.) -/
def retry_on_failure {α ε : Type} (op : ℕ → Except ε α) (retryable : ε → Bool)
    (max_retries : ℕ) (delay : ℚ) : RetryTrace α ε :=
  retryFrom op retryable delay max_retries max_retries 0

/-! ## Load generator (`src/utils/load_generator.py`)

The `dict` records the generator builds are modelled as association lists of
string keys over Python-style values, so that which keys a record carries is a
provable fact. -/

/-- A Python value as stored in the generator's result dictionaries. -/
inductive PyVal (α : Type) where
  | none
  | bool (b : Bool)
  | str (s : String)
  | num (q : ℚ)
  | obj (a : α)
deriving Repr, DecidableEq

/-- A Python `dict` with string keys, as an association list in insertion
order. -/
def Dict (α : Type) : Type := List (String × PyVal α)

instance (α : Type) [DecidableEq α] : DecidableEq (Dict α) :=
  inferInstanceAs (DecidableEq (List (String × PyVal α)))

/-- Lookup `d.get(k, dflt)`. -/
def dict_get {α : Type} (d : Dict α) (k : String) (dflt : PyVal α) : PyVal α :=
  match d.find? (fun p => p.1 == k) with
  | some p => p.2
  | Option.none => dflt

/-- Membership test `k in d`. -/
def dict_contains {α : Type} (d : Dict α) (k : String) : Bool :=
  (d.find? (fun p => p.1 == k)).isSome

/-- The keys of a record, in insertion order. -/
def Dict.keys {α : Type} (d : Dict α) : List String := d.map Prod.fst

/-- Python truthiness of the modelled values (`if r.get("success", False):`).
An arbitrary object is truthy (the generator never stores falsy payloads of
interest here). -/
def PyVal.truthy {α : Type} : PyVal α → Bool
  | .none => false
  | .bool b => b
  | .str s => s != ""
  | .num q => q != 0
  | .obj _ => true

/-- Numeric reading of a value.  In the source, `response_time` values fed to
`statistics` are numbers; Python bools count as 0/1, and any other type would
raise there, which the claims never exercise. -/
def PyVal.toNum {α : Type} : PyVal α → ℚ
  | .num q => q
  | .bool b => if b then 1 else 0
  | _ => 0

/-- The record built for one completed future in
`generate_concurrent_requests` (lines 54–67): `try` appends
`{"success": True, "result": result, "error": None}`, `except` appends
`{"success": False, "result": None, "error": str(e)}`. -/
def concurrentRecord {α : Type} : Except String α → Dict α
  | .ok v => [("success", .bool true), ("result", .obj v), ("error", .none)]
  | .error e => [("success", .bool false), ("result", .none), ("error", .str e)]

/-- Model of `LoadGenerator.generate_concurrent_requests` (lines 26–77), given the
results of the `num_requests` submitted futures in the order `as_completed`
yields them (`completed`); each future's outcome is a value or the string
description of the exception it raised.  Every future contributes exactly one
record; an exception is caught and recorded, never re-raised. -/
def generate_concurrent_requests {α : Type} (completed : List (Except String α)) :
    List (Dict α) :=
  completed.map concurrentRecord

/-- The record built for one invocation in `sustained_load` (lines 209–223):
like the concurrent record but with a `"timestamp"` key holding the clock
reading taken just after the invocation. -/
def sustainedRecord {α : Type} (r : Except String α) (ts : ℚ) : Dict α :=
  match r with
  | .ok v =>
      [("success", .bool true), ("result", .obj v), ("error", .none),
       ("timestamp", .num ts)]
  | .error e =>
      [("success", .bool false), ("result", .none), ("error", .str e),
       ("timestamp", .num ts)]

/-- The `while time.time() < end_time` loop of `sustained_load`
(lines 206–227), with the wall clock made explicit: the run starts at clock
`0` with deadline `duration`; `ops` lists, for each invocation the loop could
perform, its outcome and its elapsed time.  Each iteration checks the
deadline, invokes the operation, records the outcome with the current clock as
timestamp, then sleeps `max 0 (interval - elapsed)` to pace the loop.
Exceptions from the operation are caught and recorded; the loop continues. -/
def sustained_loop {α : Type} (interval duration : ℚ) :
    ℚ → List (Except String α × ℚ) → List (Dict α)
  | _, [] => []
  | clock, (r, e) :: rest =>
    if clock < duration then
      sustainedRecord r (clock + e) ::
        sustained_loop interval duration (clock + e + max 0 (interval - e)) rest
    else []

/-- Model of `LoadGenerator.sustained_load` (lines 181–229): computes
`interval = 1.0 / requests_per_second` at entry — a `ZeroDivisionError` iff
the rate is exactly `0` — then runs the paced loop.  Nothing else in the body
raises. -/
def sustained_load {α : Type} (requests_per_second duration : ℚ)
    (ops : List (Except String α × ℚ)) : Except String (List (Dict α)) :=
  if requests_per_second = 0 then .error "ZeroDivisionError"
  else .ok (sustained_loop (1 / requests_per_second) duration 0 ops)

/-- The entry computations of `LoadGenerator.ramp_up_load` (lines 157–159):
`num_steps = ramp_duration // step_interval` (Python floor division —
`ZeroDivisionError` when `step_interval = 0`), then
`load_increment = (final_load - initial_load) / num_steps`
(`ZeroDivisionError` when `num_steps = 0`, which happens whenever
`0 ≤ ramp_duration < step_interval`).  On success returns
`(num_steps, load_increment)`. -/
def ramp_up_entry (initial_load final_load ramp_duration step_interval : ℤ) :
    Except String (ℤ × ℚ) :=
  if step_interval = 0 then .error "ZeroDivisionError"
  else
    let num_steps := Int.fdiv ramp_duration step_interval
    if num_steps = 0 then .error "ZeroDivisionError"
    else .ok (num_steps, ((final_load - initial_load : ℤ) : ℚ) / (num_steps : ℚ))

/-- The step loop of `ramp_up_load` (lines 163–177): each step calls
`generate_concurrent_requests` and extends `all_results` with that step's
records; the per-step counts and the `time.sleep(step_interval)` between steps
are timing effects with no further influence on the records.  `stepCompleted`
lists, per step, the completed futures of that step's batch. -/
def ramp_up_steps {α : Type} (stepCompleted : List (List (Except String α))) :
    List (Dict α) :=
  (stepCompleted.map generate_concurrent_requests).flatten

/-! ## Metrics aggregator (`calculate_metrics`, lines 232–272) -/

/-- The latency block added to the metrics dict when at least one response
time exists (lines 262–270). -/
structure LatencyStats where
  min_response_time : ℚ
  max_response_time : ℚ
  avg_response_time : ℚ
  median_response_time : ℚ
  p95_response_time : ℚ
  p99_response_time : ℚ
deriving Repr, DecidableEq

/-- The metrics report.  `latency = none` models the latency keys being
absent from the returned dict (the `metrics.update` block not running). -/
structure Metrics where
  total_requests : ℕ
  successful_requests : ℕ
  failed_requests : ℕ
  success_rate : ℚ
  latency : Option LatencyStats
deriving Repr, DecidableEq

/-- Python's `sorted` on rationals (duplicates are indistinguishable, so any
correct sort produces the same list). -/
def pySorted (xs : List ℚ) : List ℚ := xs.insertionSort (· ≤ ·)

/-- Python `min(xs)` for nonempty `xs` (`calculate_metrics` only calls it
under the nonemptiness guard; the `[]` case is unreachable there). -/
def listMin : List ℚ → ℚ
  | [] => 0
  | x :: xs => xs.foldl min x

/-- Python `max(xs)` for nonempty `xs`. -/
def listMax : List ℚ → ℚ
  | [] => 0
  | x :: xs => xs.foldl max x

/-- Model of `statistics.mean`. -/
def mean (xs : List ℚ) : ℚ := xs.sum / (xs.length : ℚ)

/-- Model of `statistics.median`: sort, take the middle element (odd length) or the
average of the two middle elements (even length). -/
def median (xs : List ℚ) : ℚ :=
  let s := pySorted xs
  let n := xs.length
  if n % 2 = 1 then s.getD (n / 2) 0
  else (s.getD (n / 2 - 1) 0 + s.getD (n / 2) 0) / 2

/-- Model of `statistics.quantiles(data, n=n)` with the default exclusive method
(requires at least two data points, which the caller guards): sort, and for
`i = 1 .. n-1` take `j, delta = divmod(i * (ld + 1), n)`, clamp `j` to
`[1, ld-1]`, and interpolate
`(data[j-1] * (n - delta) + data[j] * delta) / n`. -/
def quantilesExclusive (data : List ℚ) (n : ℕ) : List ℚ :=
  let s := pySorted data
  let ld := data.length
  let m := ld + 1
  (List.range (n - 1)).map (fun i0 =>
    let i := i0 + 1
    let jd := i * m / n
    let delta := i * m % n
    let j := if jd < 1 then 1 else if jd > ld - 1 then ld - 1 else jd
    (s.getD (j - 1) 0 * ((n : ℚ) - (delta : ℚ)) + s.getD j 0 * (delta : ℚ)) /
      (n : ℚ))

/-- Model of `calculate_metrics` (lines 232–272).  `success_rate` is a percentage with
an explicit `0` for the empty input; `response_times` keeps, in order, the
`response_time` of every record that is truthy-successful **and** carries a
`response_time` key; the latency block is present iff `response_times` is
nonempty, with both percentiles collapsing to the single sample when fewer
than two samples exist. -/
def calculate_metrics {α : Type} (results : List (Dict α)) : Metrics :=
  let total_requests := results.length
  let successful_requests :=
    (results.filter (fun r => (dict_get r "success" (.bool false)).truthy)).length
  let failed_requests := total_requests - successful_requests
  let success_rate : ℚ :=
    if total_requests > 0 then
      (successful_requests : ℚ) / (total_requests : ℚ) * 100
    else 0
  let response_times :=
    (results.filter (fun r =>
        (dict_get r "success" (.bool false)).truthy &&
          dict_contains r "response_time")).map
      (fun r => (dict_get r "response_time" (.num 0)).toNum)
  { total_requests := total_requests
    successful_requests := successful_requests
    failed_requests := failed_requests
    success_rate := success_rate
    latency :=
      if response_times.isEmpty then Option.none
      else some
        { min_response_time := listMin response_times
          max_response_time := listMax response_times
          avg_response_time := mean response_times
          median_response_time := median response_times
          p95_response_time :=
            if response_times.length > 1 then
              (quantilesExclusive response_times 20).getD 18 0
            else response_times.headI
          p99_response_time :=
            if response_times.length > 1 then
              (quantilesExclusive response_times 100).getD 98 0
            else response_times.headI } }

/-! ## Helper lemmas -/

theorem should_fail_fst (cm : ChaosMonkey) (r : ℚ) :
    (should_fail cm r).1 = decide (r < cm.failure_rate) := by
  by_cases h : r < cm.failure_rate <;> simp [should_fail, h]

theorem should_fail_total (cm : ChaosMonkey) (r : ℚ) :
    (should_fail cm r).2.total_requests = cm.total_requests + 1 := by
  by_cases h : r < cm.failure_rate <;> simp [should_fail, h]

theorem should_fail_fc_le (cm : ChaosMonkey) (r : ℚ) :
    (should_fail cm r).2.failure_count ≤ cm.failure_count + 1 := by
  by_cases h : r < cm.failure_rate <;> simp [should_fail, h]

theorem should_fail_fc_ge (cm : ChaosMonkey) (r : ℚ) :
    cm.failure_count ≤ (should_fail cm r).2.failure_count := by
  by_cases h : r < cm.failure_rate <;> simp [should_fail, h]

theorem should_fail_rate (cm : ChaosMonkey) (r : ℚ) :
    (should_fail cm r).2.failure_rate = cm.failure_rate := by
  by_cases h : r < cm.failure_rate <;> simp [should_fail, h]

theorem should_fail_true_of_lt (cm : ChaosMonkey) (r : ℚ)
    (h : r < cm.failure_rate) : should_fail cm r =
      (true, { cm with total_requests := cm.total_requests + 1,
                       failure_count := cm.failure_count + 1 }) := by
  simp [should_fail, h]

/-- When the decision is a failure, `inject_failure` dispatches on the kind. -/
theorem inject_failure_of_fail {α : Type} (cm : ChaosMonkey) (v : α)
    (ft : FailureType) (td dl : ℚ) (draws : List ℚ) (c : Fin 3)
    (h : draws.headI < cm.failure_rate) :
    inject_failure cm v ft td dl draws c =
      match ft with
      | .networkTimeout => ⟨.timeoutError, 0, td, (should_fail cm draws.headI).2⟩
      | .connectionFailure => ⟨.connectionError, 0, 0, (should_fail cm draws.headI).2⟩
      | .slowResponse => ⟨.ok v, 1, dl, (should_fail cm draws.headI).2⟩
      | .serviceUnavailable =>
          ⟨.serviceUnavailableError, 0, 0, (should_fail cm draws.headI).2⟩
      | .random =>
          inject_failure (should_fail cm draws.headI).2 v (randomPool c) td dl
            draws.tail c
      | .partialFailure => ⟨.ok v, 1, 0, (should_fail cm draws.headI).2⟩ := by
  rw [inject_failure.eq_def]
  simp [should_fail_fst, h]

/-- When the decision is no failure, `inject_failure` just calls `func`. -/
theorem inject_failure_of_pass {α : Type} (cm : ChaosMonkey) (v : α)
    (ft : FailureType) (td dl : ℚ) (draws : List ℚ) (c : Fin 3)
    (h : ¬ draws.headI < cm.failure_rate) :
    inject_failure cm v ft td dl draws c =
      ⟨.ok v, 1, 0, (should_fail cm draws.headI).2⟩ := by
  rw [inject_failure.eq_def]
  simp [should_fail_fst, h]

/-- For every non-`random` kind, the state after `inject_failure` is the state
after exactly one `should_fail` call. -/
theorem inject_failure_cm_nonrandom {α : Type} (cm : ChaosMonkey) (v : α)
    (ft : FailureType) (td dl : ℚ) (draws : List ℚ) (c : Fin 3)
    (hft : ft ≠ .random) :
    (inject_failure cm v ft td dl draws c).cm = (should_fail cm draws.headI).2 := by
  by_cases h : draws.headI < cm.failure_rate
  · rw [inject_failure_of_fail cm v ft td dl draws c h]
    cases ft <;> simp_all
  · rw [inject_failure_of_pass cm v ft td dl draws c h]

/-- The `RANDOM` branch with a true decision, as a plain rewrite. -/
theorem inject_failure_fail_random {α : Type} (cm : ChaosMonkey) (v : α)
    (td dl : ℚ) (draws : List ℚ) (c : Fin 3)
    (h : draws.headI < cm.failure_rate) :
    inject_failure cm v .random td dl draws c =
      inject_failure (should_fail cm draws.headI).2 v (randomPool c) td dl
        draws.tail c := by
  rw [inject_failure_of_fail _ _ _ _ _ _ _ h]

theorem runShouldFail_rate_one (draws : List ℚ) :
    ∀ cm : ChaosMonkey, cm.failure_rate = 1 → (∀ x ∈ draws, x < 1) →
      (runShouldFail cm draws).total_requests = cm.total_requests + draws.length ∧
      (runShouldFail cm draws).failure_count = cm.failure_count + draws.length := by
  induction draws with
  | nil => intro cm _ _; simp [runShouldFail]
  | cons r rs ih =>
    intro cm hrate hd
    have hr : r < cm.failure_rate := by
      rw [hrate]; exact hd r (List.mem_cons_self r rs)
    have hstep := should_fail_true_of_lt cm r hr
    have h2 := ih (should_fail cm r).2
      (by rw [hstep]; exact hrate)
      (fun x hx => hd x (List.mem_cons_of_mem r hx))
    refine ⟨?_, ?_⟩
    · rw [runShouldFail, h2.1, hstep]
      simp
      omega
    · rw [runShouldFail, h2.2, hstep]
      simp
      omega

/-! ## Claims about the chaos injector -/

/-- C1 (counterexample): with `failure_rate = 1/2`, first draw `0` (failure
decision true) and second draw `1/2` (nested decision false), a `RANDOM`
injection returns the operation's plain result — the wrapped function is
invoked once, no synthetic failure occurs — refuting that a `Random` injection
with a true failure decision always produces the chosen kind's synthetic
failure behaviour. -/
theorem random_injection_can_pass_through :
    (0 : ℚ) < (ChaosMonkey.init (1/2)).failure_rate ∧
    inject_failure (ChaosMonkey.init (1/2)) (0 : ℕ) .random 5 2 [0, 1/2] 0 =
      ⟨.ok 0, 1, 0, ⟨1/2, 1, 2⟩⟩ := by
  constructor
  · norm_num [ChaosMonkey.init]
  · rw [inject_failure_fail_random _ _ _ _ _ _
      (by norm_num [ChaosMonkey.init])]
    rw [inject_failure_of_pass _ _ _ _ _ _ _
      (by norm_num [should_fail, ChaosMonkey.init])]
    simp [should_fail, ChaosMonkey.init]

/-- C1 (amended): when the failure decision is true, a `RANDOM` injection
chooses uniformly from exactly {NetworkTimeout, ConnectionFailure,
ServiceUnavailable} and recurses into the **full** `inject_failure` with the
chosen kind — including a fresh `should_fail` decision, so the recursive call
may still invoke the operation normally; the chosen kind's synthetic behaviour
occurs only when that fresh decision is also true. -/
theorem random_injection_dispatch {α : Type} (cm : ChaosMonkey) (v : α)
    (td dl : ℚ) (draws : List ℚ) (c : Fin 3)
    (h : draws.headI < cm.failure_rate) :
    (∀ k : FailureType, (∃ c' : Fin 3, randomPool c' = k) ↔
        (k = .networkTimeout ∨ k = .connectionFailure ∨ k = .serviceUnavailable)) ∧
    inject_failure cm v .random td dl draws c =
      inject_failure (should_fail cm draws.headI).2 v (randomPool c) td dl
        draws.tail c ∧
    (¬ draws.tail.headI < (should_fail cm draws.headI).2.failure_rate →
      inject_failure cm v .random td dl draws c =
        ⟨.ok v, 1, 0, (should_fail (should_fail cm draws.headI).2 draws.tail.headI).2⟩) := by
  have hdisp := inject_failure_of_fail cm v .random td dl draws c h
  refine ⟨?_, hdisp, ?_⟩
  · intro k
    constructor
    · rintro ⟨c', rfl⟩
      fin_cases c' <;> simp [randomPool]
    · rintro (rfl | rfl | rfl)
      exacts [⟨0, rfl⟩, ⟨1, rfl⟩, ⟨2, rfl⟩]
  · intro hpass
    rw [hdisp]
    exact inject_failure_of_pass _ v _ td dl _ c hpass

/-- C1 (witness for `random_injection_dispatch`). -/
theorem random_injection_dispatch_witness :
    (∀ k : FailureType, (∃ c' : Fin 3, randomPool c' = k) ↔
        (k = .networkTimeout ∨ k = .connectionFailure ∨ k = .serviceUnavailable)) ∧
    inject_failure (ChaosMonkey.init (1/2)) (0 : ℕ) .random 5 2 [0, 1/2] 0 =
      inject_failure (should_fail (ChaosMonkey.init (1/2)) 0).2 0 (randomPool 0) 5 2
        [1/2] 0 :=
  ⟨(random_injection_dispatch (ChaosMonkey.init (1/2)) (0 : ℕ) 5 2 [0, 1/2] 0
      (by norm_num [ChaosMonkey.init])).1,
   (random_injection_dispatch (ChaosMonkey.init (1/2)) (0 : ℕ) 5 2 [0, 1/2] 0
      (by norm_num [ChaosMonkey.init])).2.1⟩

/-- C2 (counterexample): at `failure_rate = 1` a `RANDOM` injection calls
`should_fail` twice (once at the top, once in the recursive call), so
`total_requests` does not increase by exactly 1. -/
theorem random_injection_double_counts :
    (inject_failure (ChaosMonkey.init 1) (0 : ℕ) .random 5 2 [0, 0] 0).cm.total_requests ≠
      (ChaosMonkey.init 1).total_requests + 1 := by
  rw [inject_failure_fail_random _ _ _ _ _ _ (by decide)]
  rw [inject_failure_cm_nonrandom _ _ _ _ _ _ _ (randomPool_ne_random 0)]
  decide

/-- C2 (amended): `inject_failure` calls `should_fail` exactly once — so
`total_requests` grows by exactly 1 and `failure_count` by at most 1 — in
every case **except** a `RANDOM` injection whose failure decision is true,
which recurses into `inject_failure` and calls `should_fail` a second time:
there `total_requests` grows by exactly 2 and `failure_count` by at least 1
and at most 2. -/
theorem inject_failure_counters {α : Type} (cm : ChaosMonkey) (v : α)
    (ft : FailureType) (td dl : ℚ) (draws : List ℚ) (c : Fin 3) :
    (¬ (ft = .random ∧ draws.headI < cm.failure_rate) →
      (inject_failure cm v ft td dl draws c).cm.total_requests =
          cm.total_requests + 1 ∧
      (inject_failure cm v ft td dl draws c).cm.failure_count ≤
          cm.failure_count + 1) ∧
    (ft = .random ∧ draws.headI < cm.failure_rate →
      (inject_failure cm v ft td dl draws c).cm.total_requests =
          cm.total_requests + 2 ∧
      cm.failure_count + 1 ≤ (inject_failure cm v ft td dl draws c).cm.failure_count ∧
      (inject_failure cm v ft td dl draws c).cm.failure_count ≤
          cm.failure_count + 2) := by
  constructor
  · intro hnot
    by_cases hfail : draws.headI < cm.failure_rate
    · have hft : ft ≠ .random := fun hr => hnot ⟨hr, hfail⟩
      rw [inject_failure_cm_nonrandom cm v ft td dl draws c hft]
      exact ⟨should_fail_total cm _, should_fail_fc_le cm _⟩
    · rw [inject_failure_of_pass cm v ft td dl draws c hfail]
      exact ⟨should_fail_total cm _, should_fail_fc_le cm _⟩
  · rintro ⟨rfl, hfail⟩
    rw [inject_failure_of_fail cm v .random td dl draws c hfail]
    rw [inject_failure_cm_nonrandom _ v _ td dl _ c (randomPool_ne_random c)]
    have h1 := should_fail_true_of_lt cm draws.headI hfail
    have h2t := should_fail_total (should_fail cm draws.headI).2 draws.tail.headI
    have h2le := should_fail_fc_le (should_fail cm draws.headI).2 draws.tail.headI
    have h2ge := should_fail_fc_ge (should_fail cm draws.headI).2 draws.tail.headI
    rw [h1] at h2t h2le h2ge ⊢
    simp at h2t h2le h2ge ⊢
    omega

/-- C2 (witness for `inject_failure_counters`). -/
theorem inject_failure_counters_witness :
    ((inject_failure (ChaosMonkey.init 1) (0 : ℕ) .networkTimeout 5 2 [0] 0).cm.total_requests =
        (ChaosMonkey.init 1).total_requests + 1 ∧
      (inject_failure (ChaosMonkey.init 1) (0 : ℕ) .networkTimeout 5 2 [0] 0).cm.failure_count ≤
        (ChaosMonkey.init 1).failure_count + 1) ∧
    (inject_failure (ChaosMonkey.init 1) (0 : ℕ) .random 5 2 [0, 0] 0).cm.total_requests =
        (ChaosMonkey.init 1).total_requests + 2 :=
  ⟨(inject_failure_counters (ChaosMonkey.init 1) (0 : ℕ) .networkTimeout 5 2 [0] 0).1
      (by decide),
   ((inject_failure_counters (ChaosMonkey.init 1) (0 : ℕ) .random 5 2 [0, 0] 0).2
      ⟨rfl, by decide⟩).1⟩

/-- C7: with `failure_rate = 0` every `should_fail` call returns false (draws
are in `[0,1)`); with `failure_rate = 1` every call returns true;
`get_statistics` reports `actual_failure_rate = failure_count/total_requests`
(`0` when there are no requests); and after any positive number of calls at
rate 1 the observed rate is exactly 1. -/
theorem should_fail_extremes_and_statistics (cm : ChaosMonkey) (r : ℚ)
    (draws : List ℚ) (h0 : 0 ≤ r) (h1 : r < 1)
    (hd : ∀ x ∈ draws, x < 1) (hne : draws ≠ []) :
    (cm.failure_rate = 0 → (should_fail cm r).1 = false) ∧
    (cm.failure_rate = 1 → (should_fail cm r).1 = true) ∧
    (get_statistics cm).actual_failure_rate =
      (if cm.total_requests > 0 then
        (cm.failure_count : ℚ) / (cm.total_requests : ℚ) else 0) ∧
    (get_statistics (runShouldFail (ChaosMonkey.init 1) draws)).actual_failure_rate
      = 1 := by
  refine ⟨?_, ?_, rfl, ?_⟩
  · intro hrate
    rw [should_fail_fst, hrate]
    simpa using not_lt_of_le h0
  · intro hrate
    rw [should_fail_fst, hrate]
    simpa using h1
  · obtain ⟨ht, hf⟩ := runShouldFail_rate_one draws (ChaosMonkey.init 1) rfl hd
    have hlen : 0 < draws.length := List.length_pos.mpr hne
    have hQ : ((draws.length : ℚ)) ≠ 0 := Nat.cast_ne_zero.mpr hlen.ne'
    simp [ChaosMonkey.init] at ht hf
    simp [get_statistics, ChaosMonkey.init, ht, hf, hlen, div_self hQ]

/-- C7 (witness for `should_fail_extremes_and_statistics`). -/
theorem should_fail_extremes_witness :
    ((ChaosMonkey.init 0).failure_rate = 0 →
        (should_fail (ChaosMonkey.init 0) (1/2)).1 = false) ∧
    (get_statistics (runShouldFail (ChaosMonkey.init 1) [0, 1/2])).actual_failure_rate
        = 1 :=
  ⟨(should_fail_extremes_and_statistics (ChaosMonkey.init 0) (1/2) [0, 1/2]
      (by norm_num) (by norm_num) (by intro x hx; fin_cases hx <;> norm_num)
      (by simp)).1,
   (should_fail_extremes_and_statistics (ChaosMonkey.init 0) (1/2) [0, 1/2]
      (by norm_num) (by norm_num) (by intro x hx; fin_cases hx <;> norm_num)
      (by simp)).2.2.2⟩

/-- C8: a `SLOW_RESPONSE` injection with a true failure decision sleeps
exactly the configured delay (so elapsed time is at least the delay), then
still invokes the wrapped operation exactly once and returns its real
result — no synthetic failure. -/
theorem slow_response_still_invokes {α : Type} (cm : ChaosMonkey) (v : α)
    (td dl : ℚ) (draws : List ℚ) (c : Fin 3)
    (h : draws.headI < cm.failure_rate) :
    inject_failure cm v .slowResponse td dl draws c =
      ⟨.ok v, 1, dl, (should_fail cm draws.headI).2⟩ ∧
    dl ≤ (inject_failure cm v .slowResponse td dl draws c).slept := by
  have hd := inject_failure_of_fail cm v .slowResponse td dl draws c h
  exact ⟨hd, by rw [hd]⟩

/-- C8 (witness for `slow_response_still_invokes`). -/
theorem slow_response_still_invokes_witness :
    inject_failure (ChaosMonkey.init 1) (7 : ℕ) .slowResponse 5 2 [0] 0 =
      ⟨.ok 7, 1, 2, (should_fail (ChaosMonkey.init 1) 0).2⟩ :=
  (slow_response_still_invokes (ChaosMonkey.init 1) (7 : ℕ) 5 2 [0] 0
    (by norm_num [ChaosMonkey.init])).1

/-- C10: a `PARTIAL_FAILURE` injection with a true failure decision produces
no synthetic failure at all: the dispatch has no `PARTIAL_FAILURE` branch, so
the call falls through to the final `else` and invokes the operation normally,
returning its real result with no sleep. -/
theorem partial_failure_falls_through {α : Type} (cm : ChaosMonkey) (v : α)
    (td dl : ℚ) (draws : List ℚ) (c : Fin 3)
    (h : draws.headI < cm.failure_rate) :
    inject_failure cm v .partialFailure td dl draws c =
      ⟨.ok v, 1, 0, (should_fail cm draws.headI).2⟩ :=
  inject_failure_of_fail cm v .partialFailure td dl draws c h

/-- C10 (witness for `partial_failure_falls_through`). -/
theorem partial_failure_falls_through_witness :
    inject_failure (ChaosMonkey.init 1) (7 : ℕ) .partialFailure 5 2 [0] 0 =
      ⟨.ok 7, 1, 0, (should_fail (ChaosMonkey.init 1) 0).2⟩ :=
  partial_failure_falls_through (ChaosMonkey.init 1) (7 : ℕ) 5 2 [0] 0
    (by norm_num [ChaosMonkey.init])

/-! ## Claims about the retry engine -/

theorem retryFrom_calls_le {α ε : Type} (op : ℕ → Except ε α)
    (retryable : ε → Bool) (delay : ℚ) (max_retries : ℕ) :
    ∀ fuel attempt, (retryFrom op retryable delay max_retries fuel attempt).calls ≤ fuel := by
  intro fuel
  induction fuel with
  | zero => intro attempt; simp [retryFrom]
  | succ f ih =>
    intro attempt
    rw [retryFrom]
    cases h : op attempt with
    | ok v => simp
    | error e =>
      by_cases hr : retryable e
      · by_cases hlt : attempt < max_retries - 1
        · simp only [hr, hlt, if_true]
          have := ih (attempt + 1)
          omega
        · simp [hr, hlt]
      · simp [hr]

theorem retryFrom_first_success {α ε : Type} (op : ℕ → Except ε α)
    (retryable : ε → Bool) (delay : ℚ) (max_retries : ℕ) :
    ∀ k fuel attempt (v : α), fuel + attempt = max_retries →
      attempt + k < max_retries →
      (∀ j, j < k → ∃ e, op (attempt + j) = .error e ∧ retryable e = true) →
      op (attempt + k) = .ok v →
      retryFrom op retryable delay max_retries fuel attempt =
        ⟨.ok v, k + 1, (k : ℚ) * delay⟩ := by
  intro k
  induction k with
  | zero =>
    intro fuel attempt v hfuel hlt _ hok
    obtain ⟨f, rfl⟩ : ∃ f, fuel = f + 1 := by
      refine ⟨fuel - 1, ?_⟩; omega
    rw [retryFrom]
    simp only [Nat.add_zero] at hok
    rw [hok]
    norm_num
  | succ k ih =>
    intro fuel attempt v hfuel hlt hfail hok
    obtain ⟨f, rfl⟩ : ∃ f, fuel = f + 1 := by
      refine ⟨fuel - 1, ?_⟩; omega
    obtain ⟨e, he, hre⟩ := hfail 0 (Nat.succ_pos k)
    rw [retryFrom]
    simp only [Nat.add_zero] at he
    rw [he]
    have hattempt : attempt < max_retries - 1 := by omega
    simp only [hre, hattempt, if_true]
    have hrec := ih f (attempt + 1) v (by omega) (by omega)
      (fun j hj => by
        obtain ⟨e', he', hre'⟩ := hfail (j + 1) (by omega)
        refine ⟨e', ?_, hre'⟩
        rw [show attempt + 1 + j = attempt + (j + 1) from by omega]
        exact he')
      (by
        rw [show attempt + 1 + k = attempt + (k + 1) from by omega]
        exact hok)
    rw [hrec]
    simp [RetryTrace.mk.injEq]
    ring

theorem retryFrom_exhaustion {α ε : Type} (op : ℕ → Except ε α)
    (retryable : ε → Bool) (delay : ℚ) (max_retries : ℕ) :
    ∀ fuel attempt, fuel + attempt = max_retries → 0 < fuel →
      (∀ i, attempt ≤ i → i < max_retries → ∃ e, op i = .error e ∧ retryable e = true) →
      ∃ e, op (max_retries - 1) = .error e ∧
        retryFrom op retryable delay max_retries fuel attempt =
          ⟨.raised e, fuel, ((fuel - 1 : ℕ) : ℚ) * delay⟩ := by
  intro fuel
  induction fuel with
  | zero => intro attempt _ h0; exact absurd h0 (by omega)
  | succ f ih =>
    intro attempt hfuel _ hfail
    obtain ⟨e, he, hre⟩ := hfail attempt le_rfl (by omega)
    cases Nat.eq_zero_or_pos f with
    | inl hf0 =>
      subst hf0
      have hattempt : attempt = max_retries - 1 := by omega
      refine ⟨e, by rw [← hattempt]; exact he, ?_⟩
      rw [retryFrom, he]
      have hnot : ¬ attempt < max_retries - 1 := by omega
      simp [hre, hnot]
    | inr hfpos =>
      have hattempt : attempt < max_retries - 1 := by omega
      obtain ⟨e', he', hrec⟩ := ih (attempt + 1) (by omega) hfpos
        (fun i hi hi2 => hfail i (by omega) hi2)
      refine ⟨e', he', ?_⟩
      rw [retryFrom, he]
      simp only [hre, hattempt, if_true]
      rw [hrec]
      simp [RetryTrace.mk.injEq]
      have hcast : ((f : ℚ)) = ((f - 1 : ℕ) : ℚ) + 1 := by
        rw [Nat.cast_sub hfpos]
        ring
      rw [hcast]
      ring

theorem retryFrom_one_attempt {α ε : Type} (op : ℕ → Except ε α)
    (retryable : ε → Bool) (delay : ℚ) :
    (retryFrom op retryable delay 1 1 0).calls = 1 ∧
    (retryFrom op retryable delay 1 1 0).slept = 0 := by
  rw [retryFrom]
  cases h : op 0 with
  | ok v => simp
  | error e =>
    by_cases hr : retryable e
    · simp [hr]
    · simp [hr]

/-- C3: `retry_on_failure` invokes the operation at most `max_retries` times
in total; if the first `k` attempts fail with retryable errors and attempt `k`
succeeds, it returns that result having invoked exactly `k + 1` times (no
further invocations); if all `max_retries` attempts fail with retryable
errors, it re-raises the last attempt's failure after exactly `max_retries`
invocations; and with `max_retries = 1` it performs exactly one attempt with
no retry and no sleep. -/
theorem retry_contract {α ε : Type} (op : ℕ → Except ε α)
    (retryable : ε → Bool) (max_retries : ℕ) (delay : ℚ)
    (hpos : 1 ≤ max_retries) :
    (retry_on_failure op retryable max_retries delay).calls ≤ max_retries ∧
    (∀ k (v : α), k < max_retries →
      (∀ j, j < k → ∃ e, op j = .error e ∧ retryable e = true) →
      op k = .ok v →
      retry_on_failure op retryable max_retries delay =
        ⟨.ok v, k + 1, (k : ℚ) * delay⟩) ∧
    ((∀ i, i < max_retries → ∃ e, op i = .error e ∧ retryable e = true) →
      ∃ e, op (max_retries - 1) = .error e ∧
        retry_on_failure op retryable max_retries delay =
          ⟨.raised e, max_retries, ((max_retries - 1 : ℕ) : ℚ) * delay⟩) ∧
    (max_retries = 1 →
      (retry_on_failure op retryable max_retries delay).calls = 1 ∧
      (retry_on_failure op retryable max_retries delay).slept = 0) := by
  refine ⟨retryFrom_calls_le op retryable delay max_retries max_retries 0, ?_, ?_, ?_⟩
  · intro k v hk hfail hok
    exact retryFrom_first_success op retryable delay max_retries k max_retries 0 v
      (by omega) (by omega) (by simpa using hfail) (by simpa using hok)
  · intro hfail
    exact retryFrom_exhaustion op retryable delay max_retries max_retries 0
      (by omega) (by omega) (fun i _ hi => hfail i hi)
  · intro h1
    subst h1
    exact retryFrom_one_attempt op retryable delay

/-- C3 (witness for `retry_contract`): an operation that fails twice with a
retryable error and then succeeds, retried with `max_retries = 3`, is invoked
exactly 3 times and returns the success. -/
theorem retry_contract_witness :
    retry_on_failure (fun i => if i < 2 then (.error 0 : Except ℕ ℕ) else .ok 42)
        (fun _ => true) 3 1 = ⟨.ok 42, 3, 2⟩ := by
  have h := (retry_contract (fun i => if i < 2 then (.error 0 : Except ℕ ℕ) else .ok 42)
      (fun _ => true) 3 1 (by norm_num)).2.1 2 42 (by norm_num)
      (fun j hj => ⟨0, by simp [hj], rfl⟩) (by norm_num)
  rw [h]
  norm_num

/-! ## Claims about the load generator -/

theorem length_filter_add_length_filter_neg {α : Type} (l : List α) (p : α → Bool) :
    (l.filter p).length + (l.filter (fun a => !(p a))).length = l.length := by
  induction l with
  | nil => rfl
  | cons a l ih =>
    by_cases h : p a <;> simp [List.filter_cons, h] <;> omega

/-- C4: `generate_concurrent_requests` returns exactly one record per
submitted invocation (so exactly `count` outcomes for `count` submissions),
the truthy-successful and non-successful records partition them
(`successful + failed = count`), the record at completion position `i` is
exactly the record for invocation result `i` (an exception never aborts
siblings — every later result still yields its own record), and a failed
outcome's `error` value is the exception's string description while its
`success` value is falsy. -/
theorem run_concurrent_outcomes {α : Type} (completed : List (Except String α)) :
    (generate_concurrent_requests completed).length = completed.length ∧
    ((generate_concurrent_requests completed).filter
        (fun r => (dict_get r "success" (.bool false)).truthy)).length +
      ((generate_concurrent_requests completed).filter
        (fun r => !((dict_get r "success" (.bool false)).truthy))).length =
      completed.length ∧
    (∀ i : ℕ, (generate_concurrent_requests completed)[i]? =
      (completed[i]?).map concurrentRecord) ∧
    (∀ e : String,
      dict_get (concurrentRecord (.error e : Except String α)) "error" .none =
        .str e ∧
      (dict_get (concurrentRecord (.error e : Except String α)) "success"
        (.bool false)).truthy = false) := by
  refine ⟨by simp [generate_concurrent_requests], ?_, ?_, ?_⟩
  · rw [generate_concurrent_requests] at *
    rw [← List.length_map completed concurrentRecord]
    exact length_filter_add_length_filter_neg _ _
  · intro i
    simp [generate_concurrent_requests]
  · intro e
    constructor <;> rfl

/-- C4 (witness for `run_concurrent_outcomes`). -/
theorem run_concurrent_outcomes_witness :
    (generate_concurrent_requests
        [(.ok 1 : Except String ℕ), .error "boom", .ok 2]).length = 3 ∧
    (generate_concurrent_requests
        [(.ok 1 : Except String ℕ), .error "boom", .ok 2])[1]? =
      some (concurrentRecord (.error "boom")) :=
  ⟨(run_concurrent_outcomes [(.ok 1 : Except String ℕ), .error "boom", .ok 2]).1,
   (run_concurrent_outcomes [(.ok 1 : Except String ℕ), .error "boom", .ok 2]).2.2.1 1⟩

/-- C6 (counterexample): `sustained_load` with the non-positive rate `-1`
does **not** raise at entry (nor anywhere): it returns its outcome list
normally, refuting that misconfiguration with a non-positive rate is raised
synchronously at call entry. -/
theorem sustained_load_negative_rate_no_raise :
    sustained_load (-1 : ℚ) 1 ([(.ok 0, 1)] : List (Except String ℕ × ℚ)) =
      .ok [sustainedRecord (.ok 0) 1] := by
  rw [sustained_load]
  norm_num [sustained_loop]

/-- C6 (amended): the load-generator operations never raise because of
operation failures — failed invocations become failed records.
`sustained_load` raises only the `ZeroDivisionError` from computing
`1.0 / requests_per_second` at entry, i.e. exactly when the rate is `0`; a
negative rate is accepted silently (pacing simply degenerates).
`ramp_up_load`'s entry raises `ZeroDivisionError` exactly when
`step_interval = 0` or `ramp_duration // step_interval = 0` (possible with
positive arguments, e.g. `ramp_duration < step_interval`); no other
misconfiguration check exists. -/
theorem load_generator_raise_conditions {α : Type} (rate duration : ℚ)
    (ops : List (Except String α × ℚ))
    (initial_load final_load ramp_duration step_interval : ℤ) :
    (rate ≠ 0 → sustained_load rate duration ops =
      .ok (sustained_loop (1 / rate) duration 0 ops)) ∧
    (rate = 0 → sustained_load rate duration ops =
      .error "ZeroDivisionError") ∧
    (step_interval ≠ 0 → Int.fdiv ramp_duration step_interval ≠ 0 →
      ramp_up_entry initial_load final_load ramp_duration step_interval =
        .ok (Int.fdiv ramp_duration step_interval,
          ((final_load - initial_load : ℤ) : ℚ) /
            ((Int.fdiv ramp_duration step_interval : ℤ) : ℚ))) ∧
    ((step_interval = 0 ∨ Int.fdiv ramp_duration step_interval = 0) →
      ramp_up_entry initial_load final_load ramp_duration step_interval =
        .error "ZeroDivisionError") := by
  refine ⟨?_, ?_, ?_, ?_⟩
  · intro h; simp [sustained_load, h]
  · intro h; simp [sustained_load, h]
  · intro h1 h2; simp [ramp_up_entry, h1, h2]
  · rintro (h | h)
    · simp [ramp_up_entry, h]
    · by_cases h1 : step_interval = 0
      · simp [ramp_up_entry, h1]
      · simp [ramp_up_entry, h1, h]

/-- C6 (witness for `load_generator_raise_conditions`). -/
theorem load_generator_raise_conditions_witness :
    sustained_load (0 : ℚ) 1 ([] : List (Except String ℕ × ℚ)) =
      .error "ZeroDivisionError" ∧
    ramp_up_entry 1 10 1 2 = .error "ZeroDivisionError" :=
  ⟨(load_generator_raise_conditions (0 : ℚ) 1 ([] : List (Except String ℕ × ℚ))
      1 10 1 2).2.1 rfl,
   (load_generator_raise_conditions (0 : ℚ) 1 ([] : List (Except String ℕ × ℚ))
      1 10 1 2).2.2.2 (Or.inr (by decide))⟩

/-- C9 (counterexample): the record `generate_concurrent_requests` builds for
a successful invocation carries exactly the keys `success`, `result`,
`error` — neither an elapsed duration nor a timestamp — and even
`sustained_load`'s records carry no elapsed duration, refuting that every
outcome record carries both an elapsed duration and a timestamp. -/
theorem outcome_records_lack_timing_fields :
    generate_concurrent_requests [(.ok (0 : ℕ) : Except String ℕ)] =
      [concurrentRecord (.ok 0)] ∧
    Dict.keys (concurrentRecord (.ok (0 : ℕ) : Except String ℕ)) =
      ["success", "result", "error"] ∧
    ("elapsed" ∈ Dict.keys (concurrentRecord (.ok (0 : ℕ) : Except String ℕ)))
      = False ∧
    ("timestamp" ∈ Dict.keys (concurrentRecord (.ok (0 : ℕ) : Except String ℕ)))
      = False ∧
    ("elapsed" ∈ Dict.keys (sustainedRecord (.ok (0 : ℕ) : Except String ℕ) 1))
      = False := by
  refine ⟨rfl, rfl, ?_, ?_, ?_⟩ <;>
    simp [Dict.keys, concurrentRecord, sustainedRecord]

/-- C9 (amended): every record from `generate_concurrent_requests` (hence
also from `ramp_up_load`, which concatenates such records) carries exactly
`success`, `result` (the value) and `error`, with no timing information;
`sustained_load` records additionally carry a `timestamp`, but no record of
any of the three operations carries an elapsed duration. -/
theorem outcome_record_keys {α : Type} (r : Except String α) (ts : ℚ)
    (stepCompleted : List (List (Except String α))) :
    Dict.keys (concurrentRecord r) = ["success", "result", "error"] ∧
    Dict.keys (sustainedRecord r ts) =
      ["success", "result", "error", "timestamp"] ∧
    (∀ d, d ∈ ramp_up_steps stepCompleted →
      Dict.keys d = ["success", "result", "error"]) := by
  refine ⟨?_, ?_, ?_⟩
  · cases r <;> rfl
  · cases r <;> rfl
  · intro d hd
    rw [ramp_up_steps] at hd
    obtain ⟨batch, hbatch, hdbatch⟩ := List.mem_flatten.mp hd
    obtain ⟨step, _, rfl⟩ := List.mem_map.mp hbatch
    obtain ⟨res, _, rfl⟩ := List.mem_map.mp hdbatch
    cases res <;> rfl

/-! ## Claims about the metrics aggregator -/

/-- C5: `calculate_metrics` on the empty sequence returns the all-zero report
with every latency field omitted, without raising; the latency block is
present iff at least one record is truthy-successful **and** carries a
`response_time` key; and when the response-time sample list is a single value
`x`, every latency statistic — in particular both `p95` and `p99` — equals
`x`, with no division by zero or out-of-range index. -/
theorem calculate_metrics_properties {α : Type} (results : List (Dict α)) :
    (calculate_metrics ([] : List (Dict α)) =
      { total_requests := 0, successful_requests := 0, failed_requests := 0,
        success_rate := 0, latency := Option.none }) ∧
    ((calculate_metrics results).latency.isSome ↔
      ∃ r ∈ results, ((dict_get r "success" (.bool false)).truthy &&
        dict_contains r "response_time") = true) ∧
    (∀ x : ℚ,
      (results.filter (fun r => (dict_get r "success" (.bool false)).truthy &&
          dict_contains r "response_time")).map
        (fun r => (dict_get r "response_time" (.num 0)).toNum) = [x] →
      (calculate_metrics results).latency =
        some { min_response_time := x, max_response_time := x,
               avg_response_time := x, median_response_time := x,
               p95_response_time := x, p99_response_time := x }) := by
  refine ⟨rfl, ?_, ?_⟩
  · by_cases h : results.filter (fun r =>
        (dict_get r "success" (.bool false)).truthy &&
          dict_contains r "response_time") = []
    · have h2 := List.filter_eq_nil_iff.mp h
      simp [calculate_metrics, h]
      intro r hr
      simpa using h2 r hr
    · obtain ⟨r, hr⟩ := List.exists_mem_of_ne_nil _ h
      obtain ⟨hmem, hp⟩ := List.mem_filter.mp hr
      simp [calculate_metrics, h]
      exact ⟨r, hmem, by simpa using hp⟩
  · intro x hmap
    simp [calculate_metrics, hmap, listMin, listMax, mean, median, pySorted]

/-- C5 (witness for `calculate_metrics_properties`). -/
theorem calculate_metrics_properties_witness :
    (calculate_metrics
        ([[("success", .bool true), ("response_time", .num 3)],
          [("success", .bool false)]] : List (Dict ℕ))).latency =
      some { min_response_time := 3, max_response_time := 3,
             avg_response_time := 3, median_response_time := 3,
             p95_response_time := 3, p99_response_time := 3 } :=
  (calculate_metrics_properties
      ([[("success", .bool true), ("response_time", .num 3)],
        [("success", .bool false)]] : List (Dict ℕ))).2.2 3 (by decide)

end LoadChaos
